import Mathlib

/-!
Shallow embedding of the authoritative game core of the "hot potato" survival
game (src/server.js) and of the client-side prediction/reconciliation code
(src/components/GameCanvas.tsx), together with theorems settling the frozen
claims C1-C10.

Modelling conventions:
* JavaScript numbers are modelled as rationals (ℚ).
* `Math.sqrt` / `Math.hypot` values that are *used arithmetically* (division by
  the distance, overlap depth) are passed to the embedded function as an
  explicit `dist` argument; theorems carry the defining hypotheses
  `0 ≤ dist` and `dist * dist = dx * dx + dy * dy`.  Witnesses instantiate
  them with inputs whose Euclidean distance is rational.
* `Math.hypot` values that are only *compared* against a bound are embedded by
  the equivalent comparison of squares: for every real `r`,
  `hypot dx dy < r ↔ 0 < r ∧ dx² + dy² < r²` (since `hypot ≥ 0`), and for
  `0 ≤ c`, `hypot dx dy > c ↔ dx² + dy² > c²`.
* `Math.cos (Math.atan2 dy dx) = dx / dist` and
  `Math.sin (Math.atan2 dy dx) = dy / dist` for `dist = hypot dx dy ≠ 0`;
  the movement code is embedded in this algebraic form.
* Randomised values (`findSafeSpawn`, obstacle generation) are passed in as
  explicit parameters.
* `setTimeout` registrations are reified as explicit `ScheduledCallback`
  values returned by the embedded function, with the callback body embedded
  separately; everything mutated only inside the tick returns no callback.
-/

namespace HotPotato

/-- A 2D position / vector. -/
structure Vec2 where
  x : ℚ
  y : ℚ
deriving DecidableEq

/-- A static axis-aligned obstacle rectangle (element shape produced by
`generateObstacles`, src/server.js lines 30-56). -/
structure Obstacle where
  x : ℚ
  y : ℚ
  width : ℚ
  height : ℚ
deriving DecidableEq

/-- src/server.js line 16. -/
def CANVAS_WIDTH : ℚ := 2000
/-- src/server.js line 17. -/
def CANVAS_HEIGHT : ℚ := 2000
/-- src/server.js line 18. -/
def PLAYER_RADIUS : ℚ := 25
/-- src/server.js line 19. -/
def POTATO_RADIUS : ℚ := 20
/-- src/server.js line 21. -/
def BASE_SPEED : ℚ := 250
/-- src/server.js line 22. -/
def POTATO_SPEED : ℚ := 230
/-- src/server.js line 23. -/
def SLIME_RADIUS : ℚ := 80

/-- Equivalent of `Math.hypot dx dy < r` (src uses it for all proximity
tests): since `hypot dx dy ≥ 0`, the comparison holds iff `0 < r` and
`dx² + dy² < r²`. -/
def hypotLt (dx dy r : ℚ) : Bool :=
  decide (0 < r ∧ dx * dx + dy * dy < r * r)

/-- src/server.js lines 59-78, `isPositionValid(x, y, radius, obstacles)`:
the circle of radius `radius` centred at `(x,y)` must lie inside the
2000×2000 canvas and, for every obstacle, the clamped-point distance from the
centre to the rectangle must not be below `radius`. -/
def isPositionValid (x y radius : ℚ) (obstacles : List Obstacle) : Bool :=
  if x < radius ∨ CANVAS_WIDTH - radius < x ∨ y < radius ∨ CANVAS_HEIGHT - radius < y then
    false
  else
    obstacles.all fun obs =>
      let testX := max obs.x (min x (obs.x + obs.width))
      let testY := max obs.y (min y (obs.y + obs.height))
      let distX := x - testX
      let distY := y - testY
      !decide (distX * distX + distY * distY < radius * radius)

/-- Server-side avatar state, src/server.js lines 123-147 (the fields of the
object created by `addPlayer`; `velocity` is written but never read by the
simulation and `isBot` is constantly false, so they are omitted). -/
structure Player where
  id : String
  name : String
  color : String
  position : Vec2
  radius : ℚ
  speed : ℚ
  isDead : Bool
  score : ℚ
  lives : ℤ
  ping : ℚ
  dashCooldown : ℚ
  shieldCooldown : ℚ
  smokeCooldown : ℚ
  slimeCooldown : ℚ
  isShielded : Bool
  isHidden : Bool
  isGhost : Bool
  isSilenced : Bool
  isSlowed : Bool
  speedBoostEndTime : ℚ
  input : Vec2
deriving DecidableEq

/-- src/server.js lines 120-148, `addPlayer`: the freshly created player
record (the spawn position chosen by `findSafeSpawn()` is a parameter). -/
def newPlayer (socketId name color : String) (pos : Vec2) : Player :=
  { id := socketId
    name := name
    color := color
    position := pos
    radius := PLAYER_RADIUS
    speed := BASE_SPEED
    isDead := false
    score := 0
    lives := 3
    ping := 0
    dashCooldown := 0
    shieldCooldown := 0
    smokeCooldown := 0
    slimeCooldown := 0
    isShielded := false
    isHidden := false
    isGhost := false
    isSilenced := false
    isSlowed := false
    speedBoostEndTime := 0
    input := pos }

/-- src/server.js lines 287-304: the velocity `(vx, vy)` of one avatar
movement step toward the input target.  `dx, dy` are target minus position,
`dist = Math.sqrt (dx² + dy²)` is passed explicitly, `moveStep = speed * dt`.
`Math.cos (atan2 dy dx) * moveStep = dx / dist * moveStep` and similarly for
`sin`. -/
def moveVelocity (dx dy dist moveStep : ℚ) : ℚ × ℚ :=
  if 5 < dist then
    if dist < moveStep then (dx, dy)
    else (dx / dist * moveStep, dy / dist * moveStep)
  else (0, 0)

/-- src/server.js lines 306-323: apply the velocity per axis; each axis is
attempted only when its component is nonzero and accepted only when
`isPositionValid` holds for the resulting circle, the Y test using the
already-updated X. -/
def applyMoveServer (obstacles : List Obstacle) (radius : ℚ) (pos : Vec2) (vx vy : ℚ) : Vec2 :=
  let x1 := if vx ≠ 0 ∧ isPositionValid (pos.x + vx) pos.y radius obstacles then pos.x + vx else pos.x
  let y1 := if vy ≠ 0 ∧ isPositionValid x1 (pos.y + vy) radius obstacles then pos.y + vy else pos.y
  ⟨x1, y1⟩

/-- Whole server-side movement phase for one avatar in one tick
(src/server.js lines 286-323 composed): velocity toward `input`, then the
per-axis validated application. -/
def avatarMoveStep (obstacles : List Obstacle) (radius : ℚ) (pos input : Vec2)
    (dist speed dt : ℚ) : Vec2 :=
  let dx := input.x - pos.x
  let dy := input.y - pos.y
  let v := moveVelocity dx dy dist (speed * dt)
  applyMoveServer obstacles radius pos v.1 v.2

/-- src/components/GameCanvas.tsx lines 675-687, `applyMovement`: the client
version attempts both axes unconditionally (no `v ≠ 0` guard). -/
def applyMovement (obstacles : List Obstacle) (radius : ℚ) (pos : Vec2) (vx vy : ℚ) : Vec2 :=
  let x1 := if isPositionValid (pos.x + vx) pos.y radius obstacles then pos.x + vx else pos.x
  let y1 := if isPositionValid x1 (pos.y + vy) radius obstacles then pos.y + vy else pos.y
  ⟨x1, y1⟩

/-- src/components/GameCanvas.tsx lines 638-663, `movePlayerToward`, the
self-controlled branch: dead zone `dist < 5`, step capped at `speed * dt`,
snap when `dist < moveStep`, then `applyMovement`. -/
def movePlayerTowardSelf (obstacles : List Obstacle) (radius : ℚ) (pos : Vec2)
    (tx ty dist speed dt : ℚ) : Vec2 :=
  let dx := tx - pos.x
  let dy := ty - pos.y
  if dist < 5 then pos
  else
    let moveStep := speed * dt
    let v : ℚ × ℚ :=
      if dist < moveStep then (dx, dy)
      else (dx / dist * moveStep, dy / dist * moveStep)
    applyMovement obstacles radius pos v.1 v.2

/-- src/server.js lines 326-368: pairwise separation of one unordered player
pair, with per-axis hard-wall validation of each proposed push.
`dist = Math.sqrt (dx² + dy²)` is passed explicitly. -/
def pairSeparationStep (obstacles : List Obstacle) (p1 p2 : Player) (dist : ℚ) :
    Player × Player :=
  if p1.isDead ∨ p2.isDead ∨ p1.isGhost ∨ p2.isGhost then (p1, p2)
  else
    let dx := p2.position.x - p1.position.x
    let dy := p2.position.y - p1.position.y
    let minDist := p1.radius + p2.radius
    if dist < minDist ∧ 0 < dist then
      let overlap := (minDist - dist) / 2
      let nx := dx / dist
      let ny := dy / dist
      let p1NextX := p1.position.x - nx * overlap
      let p1NextY := p1.position.y - ny * overlap
      let p2NextX := p2.position.x + nx * overlap
      let p2NextY := p2.position.y + ny * overlap
      let p1x := if isPositionValid p1NextX p1.position.y p1.radius obstacles then p1NextX else p1.position.x
      let p1y := if isPositionValid p1x p1NextY p1.radius obstacles then p1NextY else p1.position.y
      let p2x := if isPositionValid p2NextX p2.position.y p2.radius obstacles then p2NextX else p2.position.x
      let p2y := if isPositionValid p2x p2NextY p2.radius obstacles then p2NextY else p2.position.y
      ({ p1 with position := ⟨p1x, p1y⟩ }, { p2 with position := ⟨p2x, p2y⟩ })
    else (p1, p2)

/-- Pursuer state, src/server.js lines 100-108 (`velocity` is never read). -/
structure Potato where
  position : Vec2
  radius : ℚ
  speed : ℚ
  targetId : Option String
  isFrozen : Bool
  freezeEndTime : ℚ
deriving DecidableEq

/-- Squared Euclidean distance, used to embed comparisons between
`Math.hypot` values (monotone equivalence on nonnegative reals). -/
def sqDist (a b : Vec2) : ℚ :=
  (a.x - b.x) * (a.x - b.x) + (a.y - b.y) * (a.y - b.y)

/-- Targetability test from src/server.js line 409:
`!p.isDead && !p.isHidden && !p.isGhost`. -/
def targetable (p : Player) : Bool :=
  !p.isDead && !p.isHidden && !p.isGhost

/-- One step of the pursuer's nearest-target scan (the body of the `forEach`
at src/server.js lines 408-413): a targetable player replaces the running
best when it is strictly nearer (`d < minDst` on hypot values, embedded as
the same strict comparison on squared distances). -/
def targetFold (ppos : Vec2) : Option Player → Player → Option Player
  | none, p => if targetable p then some p else none
  | some b, p =>
    if targetable p then
      if sqDist p.position ppos < sqDist b.position ppos then some p else some b
    else some b

/-- src/server.js lines 406-413: the pursuer picks the targetable player of
minimum distance; first-encountered wins ties. -/
def selectTarget (players : List Player) (ppos : Vec2) : Option Player :=
  players.foldl (targetFold ppos) none

/-- src/server.js lines 417-426: one chase step of an unfrozen pursuer toward
its target's position.  `dist = Math.sqrt (dx² + dy²)` explicit; note that no
bounds or obstacle validation appears anywhere in this code path. -/
def potatoChaseStep (pos target : Vec2) (dist speed multiplier dt : ℚ) : Vec2 :=
  if 1 < dist then
    let currentSpeed := speed * multiplier
    ⟨pos.x + (target.x - pos.x) / dist * currentSpeed * dt,
     pos.y + (target.y - pos.y) / dist * currentSpeed * dt⟩
  else pos

/-- src/server.js line 403: per-tick freeze-expiry check,
`if (potato.isFrozen && now > potato.freezeEndTime) potato.isFrozen = false`. -/
def potatoUnfreezeTick (potato : Potato) (now : ℚ) : Potato :=
  if potato.isFrozen && decide (potato.freezeEndTime < now) then
    { potato with isFrozen := false }
  else potato

/-- A slime (hazard) area, src/server.js lines 550-558. -/
structure SlimeArea where
  id : String
  ownerId : String
  x : ℚ
  y : ℚ
  radius : ℚ
  spawnTime : ℚ
  duration : ℚ
deriving DecidableEq

/-- src/server.js line 230: hazard expiry each tick,
`this.slimeAreas.filter(s => now < s.spawnTime + s.duration)`. -/
def filterSlimes (areas : List SlimeArea) (now : ℚ) : List SlimeArea :=
  areas.filter fun s => decide (now < s.spawnTime + s.duration)

/-- src/server.js lines 244-274: the per-player status part of a tick —
cooldown decrement (clamped at 0), derived shield/stealth flags
(`isShielded = shieldCooldown > 17000`, `isHidden = smokeCooldown > 7000`),
speed-boost expiry by deadline comparison, the slime-area debuff loop, and
the final `p.speed = moveSpeed` write-back.  The score increment and the
score-based potato spawning (lines 275-284) belong to the room, not the
player, and are not part of this function. -/
def statusTick (p : Player) (dt now : ℚ) (slimeAreas : List SlimeArea) : Player :=
  let dash := max 0 (p.dashCooldown - dt * 1000)
  let shield := max 0 (p.shieldCooldown - dt * 1000)
  let smoke := max 0 (p.smokeCooldown - dt * 1000)
  let slime := max 0 (p.slimeCooldown - dt * 1000)
  let p1 : Player :=
    { p with
      dashCooldown := dash
      shieldCooldown := shield
      smokeCooldown := smoke
      slimeCooldown := slime
      isShielded := decide (17000 < shield)
      isHidden := decide (7000 < smoke)
      isSilenced := false
      isSlowed := false }
  let ms0 : ℚ := if p.speedBoostEndTime < now then BASE_SPEED else p.speed
  let r : Player × ℚ :=
    slimeAreas.foldl
      (fun st s =>
        if hypotLt (st.1.position.x - s.x) (st.1.position.y - s.y) s.radius
            && decide (st.1.id ≠ s.ownerId) then
          ({ st.1 with
              isSlowed := true
              isSilenced := true
              speedBoostEndTime := 0
              isShielded := false
              shieldCooldown := max st.1.shieldCooldown 1000
              isHidden := false
              smokeCooldown := max st.1.smokeCooldown 1000
              isGhost := false },
            st.2 * (3 / 4))
        else st)
      (p1, ms0)
  { r.1 with speed := r.2 }

/-- Powerup types, src/server.js lines 443-449. -/
inductive PowerupType
  | SPEED
  | FREEZE
  | DOUBLE_POINTS
  | COOLDOWN_RESET
  | GHOST
  | MAGNET
deriving DecidableEq

/-- A callback registered with `setTimeout` and run later by the JS event
loop, outside any tick update and outside any input handler.  The only such
registration in the room simulation is the GHOST-powerup self-clear,
src/server.js lines 516-520. -/
inductive ScheduledCallback
  | ghostClear (playerId : String) (delayMs : ℚ)
deriving DecidableEq

/-- src/server.js lines 510-522: the `switch (pu.type)` effect of a collected
powerup on the collecting player and the room's potatoes.  The third
component lists the `setTimeout` registrations the branch performs. -/
def applyPowerupEffect (p : Player) (potatoes : List Potato) (ty : PowerupType) (now : ℚ) :
    Player × List Potato × List ScheduledCallback :=
  match ty with
  | .SPEED =>
      ({ p with speedBoostEndTime := now + 8000, speed := BASE_SPEED * (3 / 2) }, potatoes, [])
  | .COOLDOWN_RESET =>
      ({ p with dashCooldown := 0, shieldCooldown := 0, smokeCooldown := 0, slimeCooldown := 0 },
        potatoes, [])
  | .FREEZE =>
      (p, potatoes.map fun pot => { pot with isFrozen := true, freezeEndTime := now + 3000 }, [])
  | .GHOST =>
      ({ p with isGhost := true }, potatoes, [.ghostClear p.id 5000])
  | _ => (p, potatoes, [])

/-- src/server.js lines 516-520: the body of the GHOST `setTimeout` callback,
`if (this.players[p.id]) this.players[p.id].isGhost = false`, run 5000 ms
after collection by the JS timer (not by any tick). -/
def runGhostClear (players : List (String × Player)) (pid : String) : List (String × Player) :=
  players.map fun e => if e.1 = pid then (e.1, { e.2 with isGhost := false }) else e

/-- src/server.js lines 477-499: resolution of one potato-player contact.
The distance test `Math.hypot(...) < p.radius + potato.radius` is embedded
via `hypotLt`; `spawnPos` stands for the value `this.findSafeSpawn()` returns
on a non-fatal hit.  Returns the updated potato, player and
`potatoSpeedMultiplier`. -/
def potatoHit (potato : Potato) (p : Player) (multiplier now : ℚ) (spawnPos : Vec2) :
    Potato × Player × ℚ :=
  if p.isDead then (potato, p, multiplier)
  else if hypotLt (p.position.x - potato.position.x) (p.position.y - potato.position.y)
      (p.radius + potato.radius) then
    if p.isShielded then
      if !potato.isFrozen then
        ({ potato with isFrozen := true, freezeEndTime := now + 1000 }, p, multiplier)
      else (potato, p, multiplier)
    else if !potato.isFrozen && !p.isGhost then
      let lives1 := p.lives - 1
      if lives1 ≤ 0 then
        (potato, { p with lives := lives1, isDead := true }, multiplier + 1 / 10)
      else
        (potato, { p with lives := lives1, position := spawnPos, shieldCooldown := 20000 },
          multiplier)
    else (potato, p, multiplier)
  else (potato, p, multiplier)

/-- One step of the `aliveCount` / `potentialWinner` accumulation
(src/server.js lines 236-240): every non-dead player increments the count
and overwrites `potentialWinner` with its id. -/
def aliveFold (s : ℕ × Option String) (p : Player) : ℕ × Option String :=
  if p.isDead then s else (s.1 + 1, some p.id)

/-- src/server.js lines 232-241: the `aliveCount` / `potentialWinner`
accumulation of the movement loop, in iteration order. -/
def aliveScan (players : List Player) : ℕ × Option String :=
  players.foldl aliveFold (0, none)

/-- src/server.js line 391, `Object.values(this.players).sort((a,b) => b.score - a.score)[0]`:
the head of a stable descending sort by score, i.e. the first-encountered
player of maximal score. -/
def maxByScore : List Player → Option Player
  | [] => none
  | p :: rest =>
    match maxByScore rest with
    | none => some p
    | some b => if p.score < b.score then some b else some p

/-- src/server.js lines 371-398: last-survivor tracking followed by the
game-over check.  Returns the updated `lastSurvivorId` and `some w` when the
tick returns `{gameOver: true, winnerId: w}` (`w = none` models a null
winnerId), `none` when the tick does not end the game. -/
def winCheck (now startTime : ℚ) (gameEnded : Bool) (lastSurvivorId : Option String)
    (players : List Player) : Option String × Option (Option String) :=
  let s := aliveScan players
  let aliveCount := s.1
  let potentialWinner := s.2
  let lastSurvivor1 := if aliveCount = 1 then potentialWinner else lastSurvivorId
  if 3000 < now - startTime ∧ gameEnded = false then
    if aliveCount ≤ 1 then
      let finalWinner : Option String :=
        match potentialWinner with
        | some w => some w
        | none =>
          match lastSurvivor1 with
          | some w => some w
          | none => (maxByScore players).map Player.id
      (lastSurvivor1, some finalWinner)
    else (lastSurvivor1, none)
  else (lastSurvivor1, none)

/-- Room lifecycle states, src/server.js lines 112, 188, 382, 678. -/
inductive RoomState
  | WAITING
  | PLAYING
  | GAME_OVER
deriving DecidableEq

/-- The room fields the join/lifecycle logic reads or writes,
src/server.js lines 92-118.  Players are an insertion-ordered association
list (JS object keyed by socket id). -/
structure ServerRoom where
  id : String
  hostId : String
  initialPotatoSpeed : ℚ
  maxPlayers : ℕ
  isPrivate : Bool
  players : List (String × Player)
  potatoes : List Potato
  obstacles : List Obstacle
  slimeAreas : List SlimeArea
  state : RoomState
  potatoSpeedMultiplier : ℚ
  gameEnded : Bool
  lastSurvivorId : Option String
deriving DecidableEq

/-- src/server.js lines 120-148, `addPlayer` at room level. -/
def addPlayer (room : ServerRoom) (socketId name color : String) (spawn : Vec2) : ServerRoom :=
  { room with players := room.players ++ [(socketId, newPlayer socketId name color spawn)] }

/-- src/server.js lines 597-616, the `join_room` handler for one room lookup
result: full / missing / non-WAITING rooms get an `error` event and no
mutation; otherwise the player is added.  Returns the room table entry after
the handler and the error message emitted, if any. -/
def joinRoom (roomLookup : Option ServerRoom) (socketId name color : String) (spawn : Vec2) :
    Option ServerRoom × Option String :=
  match roomLookup with
  | some room =>
    if room.state = RoomState.WAITING then
      if room.maxPlayers ≤ room.players.length then
        (some room, some "Room is full!")
      else
        (some (addPlayer room socketId name color spawn), none)
    else (some room, some "Room not found or game already in progress")
  | none => (none, some "Room not found or game already in progress")

/-- src/components/GameCanvas.tsx lines 450-462: reconciliation of the
client's own avatar against the server snapshot entry `serverP`.
`Math.hypot(dx, dy) > 50` is embedded as `50 * 50 < dx² + dy²` (equivalent
since both sides are nonnegative).  On a snap the whole server record is
taken; otherwise the server record is taken with the locally predicted
position kept. -/
def reconcileSelf (currentPos : Vec2) (serverP : Player) : Player :=
  let dx := serverP.position.x - currentPos.x
  let dy := serverP.position.y - currentPos.y
  if 50 * 50 < dx * dx + dy * dy then serverP
  else { serverP with position := currentPos }

/-! ## Helper lemmas -/

/-- A guarded X update keeps the position valid: the new X is only taken when
it was itself validated. -/
lemma isPositionValid_ite_x (obstacles : List Obstacle) (radius x y x1 : ℚ)
    (c : Prop) [Decidable c]
    (h : isPositionValid x y radius obstacles = true)
    (hc : c → isPositionValid x1 y radius obstacles = true) :
    isPositionValid (if c then x1 else x) y radius obstacles = true := by
  split
  · exact hc ‹c›
  · exact h

/-- A guarded Y update keeps the position valid. -/
lemma isPositionValid_ite_y (obstacles : List Obstacle) (radius x y y1 : ℚ)
    (c : Prop) [Decidable c]
    (h : isPositionValid x y radius obstacles = true)
    (hc : c → isPositionValid x y1 radius obstacles = true) :
    isPositionValid x (if c then y1 else y) radius obstacles = true := by
  split
  · exact hc ‹c›
  · exact h

/-- The server's per-axis move application preserves `isPositionValid`. -/
lemma applyMoveServer_valid (obstacles : List Obstacle) (radius : ℚ) (pos : Vec2) (vx vy : ℚ)
    (h : isPositionValid pos.x pos.y radius obstacles = true) :
    isPositionValid (applyMoveServer obstacles radius pos vx vy).x
      (applyMoveServer obstacles radius pos vx vy).y radius obstacles = true := by
  simp only [applyMoveServer]
  exact isPositionValid_ite_y obstacles radius _ _ _ _
    (isPositionValid_ite_x obstacles radius _ _ _ _ h fun hc => hc.2)
    (fun hc => hc.2)

/-- The pairwise-separation step preserves `isPositionValid` of both players. -/
lemma pairSeparationStep_valid (obstacles : List Obstacle) (p1 p2 : Player) (dist : ℚ)
    (h1 : isPositionValid p1.position.x p1.position.y p1.radius obstacles = true)
    (h2 : isPositionValid p2.position.x p2.position.y p2.radius obstacles = true) :
    isPositionValid (pairSeparationStep obstacles p1 p2 dist).1.position.x
        (pairSeparationStep obstacles p1 p2 dist).1.position.y p1.radius obstacles = true ∧
      isPositionValid (pairSeparationStep obstacles p1 p2 dist).2.position.x
        (pairSeparationStep obstacles p1 p2 dist).2.position.y p2.radius obstacles = true := by
  simp only [pairSeparationStep]
  split
  · exact ⟨h1, h2⟩
  · split
    · refine ⟨?_, ?_⟩
      · exact isPositionValid_ite_y obstacles p1.radius _ _ _ _
          (isPositionValid_ite_x obstacles p1.radius _ _ _ _ h1 fun hc => hc)
          (fun hc => hc)
      · exact isPositionValid_ite_y obstacles p2.radius _ _ _ _
          (isPositionValid_ite_x obstacles p2.radius _ _ _ _ h2 fun hc => hc)
          (fun hc => hc)
    · exact ⟨h1, h2⟩

/-! ## Claim C1 -/

/-- C1 (counterexample): the original claim — that every pursuer position
stays inside the arena and outside every obstacle on every tick — is false.
A pursuer at the valid position (200,100), radius 20, chasing a player at
(600,100) (distance 400, an exact rational square root), with
speed 230, multiplier 1 and dt = 10/23 (step 100), is moved by the
authoritative chase step to (300,100), which lies inside the obstacle
rectangle x ∈ [240,340], y ∈ [50,150]: the potato-movement code performs no
validation. -/
theorem claim_C1_counterexample :
    isPositionValid 200 100 POTATO_RADIUS [⟨240, 50, 100, 100⟩] = true ∧
    (400 : ℚ) * 400 = (600 - 200) * (600 - 200) + (100 - 100) * (100 - 100) ∧
    potatoChaseStep ⟨200, 100⟩ ⟨600, 100⟩ 400 230 1 (10 / 23) = ⟨300, 100⟩ ∧
    isPositionValid 300 100 POTATO_RADIUS [⟨240, 50, 100, 100⟩] = false := by
  refine ⟨?_, by norm_num, ?_, ?_⟩ <;>
    norm_num [isPositionValid, potatoChaseStep, POTATO_RADIUS, CANVAS_WIDTH, CANVAS_HEIGHT]

/-- C1 (amended): avatar positions are preserved valid by the room's movement
phase and by the pairwise-separation phase — starting from a position whose
circle is inside the 2000×2000 arena and outside every obstacle, every
accepted per-axis move keeps it so; pursuer movement performs no such
validation (see the counterexample). -/
theorem claim_C1_theorem :
    (∀ (obstacles : List Obstacle) (radius : ℚ) (pos input : Vec2) (dist speed dt : ℚ),
      isPositionValid pos.x pos.y radius obstacles = true →
      isPositionValid (avatarMoveStep obstacles radius pos input dist speed dt).x
        (avatarMoveStep obstacles radius pos input dist speed dt).y radius obstacles = true) ∧
    (∀ (obstacles : List Obstacle) (p1 p2 : Player) (dist : ℚ),
      isPositionValid p1.position.x p1.position.y p1.radius obstacles = true →
      isPositionValid p2.position.x p2.position.y p2.radius obstacles = true →
      isPositionValid (pairSeparationStep obstacles p1 p2 dist).1.position.x
          (pairSeparationStep obstacles p1 p2 dist).1.position.y p1.radius obstacles = true ∧
        isPositionValid (pairSeparationStep obstacles p1 p2 dist).2.position.x
          (pairSeparationStep obstacles p1 p2 dist).2.position.y p2.radius obstacles = true) := by
  constructor
  · intro obstacles radius pos input dist speed dt h
    exact applyMoveServer_valid obstacles radius pos _ _ h
  · intro obstacles p1 p2 dist h1 h2
    exact pairSeparationStep_valid obstacles p1 p2 dist h1 h2

/-- C1 (witness): the avatar-movement preservation applied at a concrete
valid start position next to an obstacle. -/
theorem claim_C1_witness :
    isPositionValid
        (avatarMoveStep [⟨340, 50, 20, 100⟩] 25 ⟨100, 100⟩ ⟨500, 100⟩ 400 250 1).x
        (avatarMoveStep [⟨340, 50, 20, 100⟩] 25 ⟨100, 100⟩ ⟨500, 100⟩ 400 250 1).y
        25 [⟨340, 50, 20, 100⟩] = true :=
  claim_C1_theorem.1 [⟨340, 50, 20, 100⟩] 25 ⟨100, 100⟩ ⟨500, 100⟩ 400 250 1
    (by norm_num [isPositionValid, CANVAS_WIDTH, CANVAS_HEIGHT])

/-! ## Claim C2 -/

/-- C2: in the client's own-avatar reconciliation, if the Euclidean distance
between the predicted and the server position exceeds 50 — equivalently, its
square exceeds 50 * 50 — the whole server record (position included) is
taken; otherwise the predicted position is kept while lives, death flag,
score and all four cooldowns are taken from the server record. -/
theorem claim_C2_theorem (currentPos : Vec2) (serverP : Player) :
    (50 * 50 < (serverP.position.x - currentPos.x) * (serverP.position.x - currentPos.x) +
        (serverP.position.y - currentPos.y) * (serverP.position.y - currentPos.y) →
      reconcileSelf currentPos serverP = serverP) ∧
    ((serverP.position.x - currentPos.x) * (serverP.position.x - currentPos.x) +
        (serverP.position.y - currentPos.y) * (serverP.position.y - currentPos.y) ≤ 50 * 50 →
      (reconcileSelf currentPos serverP).position = currentPos ∧
      (reconcileSelf currentPos serverP).lives = serverP.lives ∧
      (reconcileSelf currentPos serverP).isDead = serverP.isDead ∧
      (reconcileSelf currentPos serverP).score = serverP.score ∧
      (reconcileSelf currentPos serverP).dashCooldown = serverP.dashCooldown ∧
      (reconcileSelf currentPos serverP).shieldCooldown = serverP.shieldCooldown ∧
      (reconcileSelf currentPos serverP).smokeCooldown = serverP.smokeCooldown ∧
      (reconcileSelf currentPos serverP).slimeCooldown = serverP.slimeCooldown) := by
  constructor
  · intro h
    simp only [reconcileSelf, if_pos h]
  · intro h
    simp [reconcileSelf, if_neg (not_lt.mpr h)]

/-- C2 (witness): a divergence of 100 units snaps to the server record; a
divergence of 30 units keeps the predicted position. -/
theorem claim_C2_witness :
    reconcileSelf ⟨0, 0⟩ (newPlayer "s" "S" "blue" ⟨100, 0⟩) =
        newPlayer "s" "S" "blue" ⟨100, 0⟩ ∧
      (reconcileSelf ⟨70, 0⟩ (newPlayer "s" "S" "blue" ⟨100, 0⟩)).position = ⟨70, 0⟩ :=
  ⟨(claim_C2_theorem ⟨0, 0⟩ (newPlayer "s" "S" "blue" ⟨100, 0⟩)).1
      (by norm_num [newPlayer]),
    ((claim_C2_theorem ⟨70, 0⟩ (newPlayer "s" "S" "blue" ⟨100, 0⟩)).2
      (by norm_num [newPlayer])).1⟩

/-! ## Claim C4 -/

/-- C4: the avatar movement step.  First conjunct: for any true distance
`dist` to the target (`dist * dist = dx * dx + dy * dy`, `0 ≤ dist`) and any
nonnegative step bound `ms = speed * dt`, the velocity produced by the
movement code has squared magnitude at most `ms * ms` (it snaps to the exact
remaining delta when `dist < ms`).  Second and third conjuncts: the concrete
scenarios — an avatar at (100,100), radius 25, target (500,100), speed 250,
dt 1 moves to (350,100) on an empty map, and stays at (100,100) when the
obstacle x ∈ [340,360], y ∈ [50,150] blocks the X step (the Y delta being
0). -/
theorem claim_C4_theorem :
    (∀ dx dy dist ms : ℚ, 0 ≤ dist → dist * dist = dx * dx + dy * dy → 0 ≤ ms →
      (moveVelocity dx dy dist ms).1 * (moveVelocity dx dy dist ms).1 +
          (moveVelocity dx dy dist ms).2 * (moveVelocity dx dy dist ms).2 ≤ ms * ms) ∧
    ((400 : ℚ) * 400 = (500 - 100) * (500 - 100) + (100 - 100) * (100 - 100) ∧
      avatarMoveStep [] 25 ⟨100, 100⟩ ⟨500, 100⟩ 400 250 1 = ⟨350, 100⟩) ∧
    (avatarMoveStep [⟨340, 50, 20, 100⟩] 25 ⟨100, 100⟩ ⟨500, 100⟩ 400 250 1 = ⟨100, 100⟩) := by
  refine ⟨?_, ⟨by norm_num, ?_⟩, ?_⟩
  · intro dx dy dist ms h0 hsq hms
    unfold moveVelocity
    split
    · rename_i h5
      split
      · rename_i hlt
        calc dx * dx + dy * dy = dist * dist := hsq.symm
          _ ≤ ms * ms := mul_self_le_mul_self h0 (le_of_lt hlt)
      · rename_i hge
        have hd : dist ≠ 0 := by
          intro h
          rw [h] at h5
          norm_num at h5
        have : dx / dist * ms * (dx / dist * ms) + dy / dist * ms * (dy / dist * ms)
            = ms * ms := by
          field_simp
          linear_combination (ms * ms) * hsq.symm
        simp only [this, le_refl]
    · simpa using mul_self_nonneg ms
  · norm_num [avatarMoveStep, moveVelocity, applyMoveServer, isPositionValid,
      CANVAS_WIDTH, CANVAS_HEIGHT]
  · norm_num [avatarMoveStep, moveVelocity, applyMoveServer, isPositionValid,
      CANVAS_WIDTH, CANVAS_HEIGHT]

/-- C4 (witness): the magnitude cap applied at the concrete scenario input
(distance 400, step bound 250). -/
theorem claim_C4_witness :
    (moveVelocity 400 0 400 250).1 * (moveVelocity 400 0 400 250).1 +
        (moveVelocity 400 0 400 250).2 * (moveVelocity 400 0 400 250).2 ≤ 250 * 250 :=
  claim_C4_theorem.1 400 0 400 250 (by norm_num) (by norm_num) (by norm_num)

/-! ## Claim C9 -/

/-- C9: pairwise separation is idempotent on non-overlapping inputs — for two
living non-ghost players whose center distance (`dist`, the true Euclidean
distance between the two positions) is at least the sum of their radii, the
separation step changes neither player. -/
theorem claim_C9_theorem (obstacles : List Obstacle) (p1 p2 : Player) (dist : ℚ)
    (hd1 : p1.isDead = false) (hd2 : p2.isDead = false)
    (hg1 : p1.isGhost = false) (hg2 : p2.isGhost = false)
    (_h0 : 0 ≤ dist)
    (_hsq : dist * dist =
      (p2.position.x - p1.position.x) * (p2.position.x - p1.position.x) +
        (p2.position.y - p1.position.y) * (p2.position.y - p1.position.y))
    (hge : p1.radius + p2.radius ≤ dist) :
    pairSeparationStep obstacles p1 p2 dist = (p1, p2) := by
  unfold pairSeparationStep
  rw [if_neg, if_neg]
  · rintro ⟨hlt, -⟩
    exact absurd hlt (not_lt.mpr hge)
  · simp [hd1, hd2, hg1, hg2]

/-- C9 (witness): two default players 100 apart (sum of radii 50) are left
unchanged by the separation step. -/
theorem claim_C9_witness :
    pairSeparationStep [] (newPlayer "a" "A" "red" ⟨100, 100⟩)
        (newPlayer "b" "B" "blue" ⟨200, 100⟩) 100 =
      (newPlayer "a" "A" "red" ⟨100, 100⟩, newPlayer "b" "B" "blue" ⟨200, 100⟩) :=
  claim_C9_theorem [] (newPlayer "a" "A" "red" ⟨100, 100⟩)
    (newPlayer "b" "B" "blue" ⟨200, 100⟩) 100
    rfl rfl rfl rfl (by norm_num)
    (by norm_num [newPlayer]) (by norm_num [newPlayer, PLAYER_RADIUS])

/-! ## Claim C10 -/

/-- C10 (counterexample): the original claim — movement leaves the position
unchanged whenever the distance to the target is at most 5 units, on the
server and in the client's local prediction — is false at distance exactly
5: the client's dead zone is strict (`dist < 5`), so a self-controlled avatar
at (100,100) whose target (104,103) lies at distance exactly 5 is moved (all
the way to the target, since the remaining distance is below one step). -/
theorem claim_C10_counterexample :
    (5 : ℚ) * 5 = (104 - 100) * (104 - 100) + (103 - 100) * (103 - 100) ∧
    movePlayerTowardSelf [] 25 ⟨100, 100⟩ 104 103 5 250 1 = ⟨104, 103⟩ ∧
    (⟨104, 103⟩ : Vec2) ≠ (⟨100, 100⟩ : Vec2) := by
  refine ⟨by norm_num, ?_, ?_⟩
  · norm_num [movePlayerTowardSelf, applyMovement, isPositionValid, CANVAS_WIDTH, CANVAS_HEIGHT]
  · intro h
    have := congrArg Vec2.x h
    norm_num at this

/-- C10 (amended): the movement dead zone differs by one boundary point
between the two simulations — the server's movement phase leaves an avatar
unchanged whenever the distance to its input target is at most 5 (it moves
only when `dist > 5`), while the client's own-avatar prediction leaves it
unchanged exactly when the distance is strictly below 5. -/
theorem claim_C10_theorem :
    (∀ (obstacles : List Obstacle) (radius : ℚ) (pos input : Vec2) (dist speed dt : ℚ),
      dist ≤ 5 → avatarMoveStep obstacles radius pos input dist speed dt = pos) ∧
    (∀ (obstacles : List Obstacle) (radius : ℚ) (pos : Vec2) (tx ty dist speed dt : ℚ),
      dist < 5 → movePlayerTowardSelf obstacles radius pos tx ty dist speed dt = pos) := by
  constructor
  · intro obstacles radius pos input dist speed dt h
    simp only [avatarMoveStep, moveVelocity]
    rw [if_neg (not_lt.mpr h)]
    simp [applyMoveServer]
  · intro obstacles radius pos tx ty dist speed dt h
    simp only [movePlayerTowardSelf]
    rw [if_pos h]

/-- C10 (witness): the server movement phase at distance exactly 5 (target
(104,103) from (100,100)) leaves the avatar in place. -/
theorem claim_C10_witness :
    avatarMoveStep [] 25 ⟨100, 100⟩ ⟨104, 103⟩ 5 250 1 = ⟨100, 100⟩ :=
  claim_C10_theorem.1 [] 25 ⟨100, 100⟩ ⟨104, 103⟩ 5 250 1 (by norm_num)

/-! ## Claim C5 -/

/-- C5: outcomes of one pursuer-avatar contact (`hcol`), for a living avatar.
Shielded: the avatar is untouched, the multiplier is unchanged, and a
non-frozen pursuer becomes frozen until `now + 1000`.  Ghosted (unshielded):
nothing changes.  Frozen pursuer (unshielded avatar): nothing changes.
Otherwise the avatar loses exactly one life; from `lives = 1` it is marked
dead and the room's pursuer-speed multiplier grows by exactly 1/10; from
`lives ≥ 2` it is respawned at the `findSafeSpawn()` position with
`shieldCooldown` set to its maximum 20000 (a temporary shield, since the
shield is derived as `shieldCooldown > 17000`), the multiplier unchanged. -/
theorem claim_C5_theorem (potato : Potato) (p : Player) (multiplier now : ℚ) (spawnPos : Vec2)
    (halive : p.isDead = false)
    (hcol : hypotLt (p.position.x - potato.position.x) (p.position.y - potato.position.y)
      (p.radius + potato.radius) = true) :
    (p.isShielded = true →
      (potatoHit potato p multiplier now spawnPos).2.1 = p ∧
      (potatoHit potato p multiplier now spawnPos).2.2 = multiplier ∧
      (potato.isFrozen = false →
        (potatoHit potato p multiplier now spawnPos).1 =
          { potato with isFrozen := true, freezeEndTime := now + 1000 })) ∧
    (p.isShielded = false → p.isGhost = true →
      potatoHit potato p multiplier now spawnPos = (potato, p, multiplier)) ∧
    (p.isShielded = false → potato.isFrozen = true →
      potatoHit potato p multiplier now spawnPos = (potato, p, multiplier)) ∧
    (p.isShielded = false → p.isGhost = false → potato.isFrozen = false →
      (potatoHit potato p multiplier now spawnPos).2.1.lives = p.lives - 1 ∧
      (p.lives = 1 →
        (potatoHit potato p multiplier now spawnPos).1 = potato ∧
        (potatoHit potato p multiplier now spawnPos).2.1.isDead = true ∧
        (potatoHit potato p multiplier now spawnPos).2.2 = multiplier + 1 / 10) ∧
      (2 ≤ p.lives →
        (potatoHit potato p multiplier now spawnPos).1 = potato ∧
        (potatoHit potato p multiplier now spawnPos).2.1.isDead = false ∧
        (potatoHit potato p multiplier now spawnPos).2.1.position = spawnPos ∧
        (potatoHit potato p multiplier now spawnPos).2.1.shieldCooldown = 20000 ∧
        (potatoHit potato p multiplier now spawnPos).2.2 = multiplier)) := by
  refine ⟨?_, ?_, ?_, ?_⟩
  · intro hs
    simp only [potatoHit, halive, hcol, hs]
    constructor
    · cases hf : potato.isFrozen <;> simp
    · constructor
      · cases hf : potato.isFrozen <;> simp
      · intro hf
        simp [hf]
  · intro hs hg
    simp [potatoHit, halive, hcol, hs, hg]
  · intro hs hf
    simp [potatoHit, halive, hcol, hs, hf]
  · intro hs hg hf
    simp only [potatoHit, halive, hcol, hs, hg, hf, Bool.not_false, Bool.and_self,
      Bool.false_eq_true, if_false, if_true, ite_true, ite_false]
    refine ⟨?_, ?_, ?_⟩
    · split <;> simp
    · intro h1
      split
      · simp
      · rename_i hcond
        exact (hcond (by omega)).elim
    · intro h2
      split
      · rename_i hcond
        exact absurd hcond (by omega)
      · simp

/-- C5 (witness): the lethal branch applied concretely — an unshielded,
unghosted avatar with one life, standing 10 units from an unfrozen pursuer
(radii 25 + 20), is marked dead and the multiplier rises from 1 to 11/10. -/
theorem claim_C5_witness :
    (potatoHit
        { position := ⟨100, 100⟩, radius := POTATO_RADIUS, speed := POTATO_SPEED,
          targetId := none, isFrozen := false, freezeEndTime := 0 }
        { newPlayer "v" "V" "red" ⟨110, 100⟩ with lives := 1 }
        1 0 ⟨500, 500⟩).2.1.isDead = true ∧
      (potatoHit
        { position := ⟨100, 100⟩, radius := POTATO_RADIUS, speed := POTATO_SPEED,
          targetId := none, isFrozen := false, freezeEndTime := 0 }
        { newPlayer "v" "V" "red" ⟨110, 100⟩ with lives := 1 }
        1 0 ⟨500, 500⟩).2.2 = 1 + 1 / 10 := by
  have h := claim_C5_theorem
    { position := ⟨100, 100⟩, radius := POTATO_RADIUS, speed := POTATO_SPEED,
      targetId := none, isFrozen := false, freezeEndTime := 0 }
    { newPlayer "v" "V" "red" ⟨110, 100⟩ with lives := 1 }
    1 0 ⟨500, 500⟩ rfl
    (by norm_num [hypotLt, newPlayer, PLAYER_RADIUS, POTATO_RADIUS])
  have h4 := h.2.2.2 rfl rfl rfl
  have hl := h4.2.1 rfl
  exact ⟨hl.2.1, hl.2.2⟩

/-! ## Claim C8 -/

/-- C8: a `join_room` command for a missing room, a room not in the WAITING
state (already in progress or ended), or a full room, produces exactly an
error event and leaves the room table entry unchanged; no player is added
and no room field is mutated. -/
theorem claim_C8_theorem :
    (∀ (socketId name color : String) (spawn : Vec2),
      joinRoom none socketId name color spawn =
        (none, some "Room not found or game already in progress")) ∧
    (∀ (room : ServerRoom) (socketId name color : String) (spawn : Vec2),
      room.state ≠ RoomState.WAITING →
      joinRoom (some room) socketId name color spawn =
        (some room, some "Room not found or game already in progress")) ∧
    (∀ (room : ServerRoom) (socketId name color : String) (spawn : Vec2),
      room.state = RoomState.WAITING →
      room.maxPlayers ≤ room.players.length →
      joinRoom (some room) socketId name color spawn =
        (some room, some "Room is full!")) := by
  refine ⟨fun _ _ _ _ => rfl, ?_, ?_⟩
  · intro room socketId name color spawn hstate
    simp [joinRoom, hstate]
  · intro room socketId name color spawn hstate hfull
    simp [joinRoom, hstate, hfull]

/-- C8 (witness): joining a 1-capacity WAITING room that already holds one
player yields the full-room error and the unchanged room. -/
theorem claim_C8_witness :
    joinRoom
        (some { id := "R", hostId := "a", initialPotatoSpeed := 1, maxPlayers := 1,
                isPrivate := false,
                players := [("a", newPlayer "a" "A" "red" ⟨100, 100⟩)],
                potatoes := [], obstacles := [], slimeAreas := [],
                state := RoomState.WAITING, potatoSpeedMultiplier := 1,
                gameEnded := false, lastSurvivorId := none })
        "b" "B" "blue" ⟨200, 200⟩ =
      (some { id := "R", hostId := "a", initialPotatoSpeed := 1, maxPlayers := 1,
              isPrivate := false,
              players := [("a", newPlayer "a" "A" "red" ⟨100, 100⟩)],
              potatoes := [], obstacles := [], slimeAreas := [],
              state := RoomState.WAITING, potatoSpeedMultiplier := 1,
              gameEnded := false, lastSurvivorId := none },
        some "Room is full!") :=
  claim_C8_theorem.2.2 _ "b" "B" "blue" ⟨200, 200⟩ rfl (by simp)

/-! ## Claim C7 -/

/-- C7 (counterexample): the original claim — that no status flag is ever
mutated by an independently scheduled callback — is false for the ghost
flag.  Collecting a GHOST powerup sets `isGhost` and registers a `setTimeout`
callback (reified here as a `ScheduledCallback`, run by the JS timer 5000 ms
later, outside any tick update and outside any input handler) whose body
flips `isGhost` back to false. -/
theorem claim_C7_counterexample :
    (applyPowerupEffect (newPlayer "g" "G" "red" ⟨100, 100⟩) [] PowerupType.GHOST 0).2.2 =
        [ScheduledCallback.ghostClear "g" 5000] ∧
      (applyPowerupEffect (newPlayer "g" "G" "red" ⟨100, 100⟩) [] PowerupType.GHOST 0).1.isGhost
        = true ∧
      (runGhostClear
          [("g", (applyPowerupEffect (newPlayer "g" "G" "red" ⟨100, 100⟩) []
            PowerupType.GHOST 0).1)] "g").map (fun e => e.2.isGhost) = [false] := by
  refine ⟨rfl, rfl, ?_⟩
  simp [runGhostClear, applyPowerupEffect, newPlayer]

/-- C7 (amended): every timed effect except ghost expiry is a per-tick
comparison against stored cooldown/deadline state: no powerup branch other
than GHOST registers a scheduled callback; the pursuer's freeze flag after
the tick check is a pure function of the stored flag, the stored deadline and
the current time; a hazard area survives the tick exactly while
`now < spawnTime + duration`; and (outside slime areas, here the empty slime
list) the shield and stealth flags after the status update are pure functions
of the updated cooldowns (`> 17000` resp. `> 7000`).  Ghost expiry alone is
mutated by an independently scheduled `setTimeout` callback (see the
counterexample). -/
theorem claim_C7_theorem :
    (∀ (p : Player) (potatoes : List Potato) (ty : PowerupType) (now : ℚ),
      ty ≠ PowerupType.GHOST → (applyPowerupEffect p potatoes ty now).2.2 = []) ∧
    (∀ (potato : Potato) (now : ℚ),
      (potatoUnfreezeTick potato now).isFrozen =
        (potato.isFrozen && !decide (potato.freezeEndTime < now))) ∧
    (∀ (areas : List SlimeArea) (now : ℚ) (s : SlimeArea),
      s ∈ filterSlimes areas now ↔ s ∈ areas ∧ now < s.spawnTime + s.duration) ∧
    (∀ (p : Player) (dt now : ℚ),
      (statusTick p dt now []).isShielded =
          decide (17000 < max 0 (p.shieldCooldown - dt * 1000)) ∧
        (statusTick p dt now []).isHidden =
          decide (7000 < max 0 (p.smokeCooldown - dt * 1000))) := by
  refine ⟨?_, ?_, ?_, ?_⟩
  · intro p potatoes ty now hty
    cases ty <;> first | rfl | exact absurd rfl hty
  · intro potato now
    unfold potatoUnfreezeTick
    cases hf : potato.isFrozen <;> cases hd : decide (potato.freezeEndTime < now) <;>
      simp [hf, hd]
  · intro areas now s
    simp [filterSlimes, List.mem_filter]
  · intro p dt now
    simp [statusTick]

/-- C7 (witness): no scheduled callback is registered by a FREEZE pickup
(its effect is a stored deadline, `freezeEndTime = now + 3000`). -/
theorem claim_C7_witness :
    (applyPowerupEffect (newPlayer "a" "A" "red" ⟨100, 100⟩) [] PowerupType.FREEZE 0).2.2 = [] :=
  claim_C7_theorem.1 (newPlayer "a" "A" "red" ⟨100, 100⟩) [] PowerupType.FREEZE 0 (by simp)

/-! ## Claim C3 -/

/-- Folding the nearest-target scan from a `some` accumulator yields a result
at least as near as the accumulator. -/
lemma foldl_targetFold_le (ppos : Vec2) :
    ∀ (l : List Player) (b p : Player),
      l.foldl (targetFold ppos) (some b) = some p →
      sqDist p.position ppos ≤ sqDist b.position ppos := by
  intro l
  induction l with
  | nil =>
    intro b p h
    simp only [List.foldl_nil, Option.some.injEq] at h
    subst h
    exact le_rfl
  | cons a l ih =>
    intro b p h
    simp only [List.foldl_cons, targetFold] at h
    by_cases ht : targetable a = true
    · rw [if_pos ht] at h
      by_cases hlt : sqDist a.position ppos < sqDist b.position ppos
      · rw [if_pos hlt] at h
        exact le_trans (ih a p h) (le_of_lt hlt)
      · rw [if_neg hlt] at h
        exact ih b p h
    · rw [if_neg ht] at h
      exact ih b p h

/-- The nearest-target scan only ever returns a targetable member of the
scanned list (or its starting accumulator). -/
lemma foldl_targetFold_mem (ppos : Vec2) :
    ∀ (l : List Player) (acc : Option Player) (p : Player),
      l.foldl (targetFold ppos) acc = some p →
      (p ∈ l ∧ targetable p = true) ∨ acc = some p := by
  intro l
  induction l with
  | nil =>
    intro acc p h
    right
    simpa using h
  | cons a l ih =>
    intro acc p h
    simp only [List.foldl_cons] at h
    rcases ih _ p h with ⟨hm, ht⟩ | hacc
    · exact Or.inl ⟨List.mem_cons_of_mem a hm, ht⟩
    · cases acc with
      | none =>
        simp only [targetFold] at hacc
        by_cases ht : targetable a = true
        · rw [if_pos ht] at hacc
          obtain rfl : a = p := by simpa using hacc
          exact Or.inl ⟨List.mem_cons_self a l, ht⟩
        · rw [if_neg ht] at hacc
          cases hacc
      | some b =>
        simp only [targetFold] at hacc
        by_cases ht : targetable a = true
        · rw [if_pos ht] at hacc
          by_cases hlt : sqDist a.position ppos < sqDist b.position ppos
          · rw [if_pos hlt] at hacc
            obtain rfl : a = p := by simpa using hacc
            exact Or.inl ⟨List.mem_cons_self a l, ht⟩
          · rw [if_neg hlt] at hacc
            exact Or.inr hacc
        · rw [if_neg ht] at hacc
          exact Or.inr hacc

/-- The nearest-target scan result is at least as near as every targetable
member of the scanned list. -/
lemma foldl_targetFold_min (ppos : Vec2) :
    ∀ (l : List Player) (acc : Option Player) (p q : Player),
      q ∈ l → targetable q = true →
      l.foldl (targetFold ppos) acc = some p →
      sqDist p.position ppos ≤ sqDist q.position ppos := by
  intro l
  induction l with
  | nil =>
    intro acc p q hq
    cases hq
  | cons a l ih =>
    intro acc p q hq htq h
    simp only [List.foldl_cons] at h
    rcases List.mem_cons.mp hq with rfl | hql
    · cases acc with
      | none =>
        rw [show targetFold ppos none q = some q from by simp [targetFold, htq]] at h
        exact foldl_targetFold_le ppos l q p h
      | some b =>
        by_cases hlt : sqDist q.position ppos < sqDist b.position ppos
        · rw [show targetFold ppos (some b) q = some q from by
            simp [targetFold, htq, if_pos hlt]] at h
          exact foldl_targetFold_le ppos l q p h
        · rw [show targetFold ppos (some b) q = some b from by
            simp [targetFold, htq, if_neg hlt]] at h
          exact le_trans (foldl_targetFold_le ppos l b p h) (not_lt.mp hlt)
    · exact ih _ p q hql htq h

/-- C3 (counterexample): the original claim — that the authoritative
pursuer movement follows A*-computed waypoints and validates each step
against bounds and obstacles like avatar movement — is false: the
authoritative chase step moves in a straight line with no validation at all.
A pursuer at the valid in-bounds position (1900,1000), radius 20, chasing a
target at (1970,1000) (distance 70) with speed 230, multiplier 1, dt = 1/2
(step 115) overshoots to (2015,1000), which is outside the 2000×2000 arena
even with no obstacles — a position avatar movement would have rejected. -/
theorem claim_C3_counterexample :
    isPositionValid 1900 1000 POTATO_RADIUS [] = true ∧
    (70 : ℚ) * 70 = (1970 - 1900) * (1970 - 1900) + (1000 - 1000) * (1000 - 1000) ∧
    potatoChaseStep ⟨1900, 1000⟩ ⟨1970, 1000⟩ 70 230 1 (1 / 2) = ⟨2015, 1000⟩ ∧
    isPositionValid 2015 1000 POTATO_RADIUS [] = false := by
  refine ⟨?_, by norm_num, ?_, ?_⟩ <;>
    norm_num [isPositionValid, potatoChaseStep, POTATO_RADIUS, CANVAS_WIDTH, CANVAS_HEIGHT]

/-- C3 (amended): the authoritative simulation uses no pathfinding for the
pursuer.  Each tick an unfrozen pursuer targets the nearest living,
non-stealthed, non-ghosted avatar (first conjunct: the selected target is a
targetable member of minimal distance) and, when farther than 1 unit, moves
straight toward it: the displacement is collinear with the vector to the
target and has magnitude exactly `speed * multiplier * dt`, with no bounds or
obstacle validation (see the counterexample).  The grid-quantized
bounded-iteration A* with straight-line fallback exists only in the client's
offline simulation (GameCanvas `findPath`), not in the server. -/
theorem claim_C3_theorem :
    (∀ (players : List Player) (ppos : Vec2) (p : Player),
      selectTarget players ppos = some p →
      (p ∈ players ∧ targetable p = true) ∧
        ∀ q ∈ players, targetable q = true →
          sqDist p.position ppos ≤ sqDist q.position ppos) ∧
    (∀ (pos target : Vec2) (dist speed multiplier dt : ℚ),
      0 ≤ dist →
      dist * dist = (target.x - pos.x) * (target.x - pos.x) +
        (target.y - pos.y) * (target.y - pos.y) →
      1 < dist →
      ((potatoChaseStep pos target dist speed multiplier dt).x - pos.x) * (target.y - pos.y) =
          ((potatoChaseStep pos target dist speed multiplier dt).y - pos.y) *
            (target.x - pos.x) ∧
        ((potatoChaseStep pos target dist speed multiplier dt).x - pos.x) *
              ((potatoChaseStep pos target dist speed multiplier dt).x - pos.x) +
            ((potatoChaseStep pos target dist speed multiplier dt).y - pos.y) *
              ((potatoChaseStep pos target dist speed multiplier dt).y - pos.y) =
          (speed * multiplier * dt) * (speed * multiplier * dt)) := by
  constructor
  · intro players ppos p h
    have hmem : (p ∈ players ∧ targetable p = true) := by
      rcases foldl_targetFold_mem ppos players none p h with hm | hacc
      · exact hm
      · cases hacc
    exact ⟨hmem, fun q hq htq => foldl_targetFold_min ppos players none p q hq htq h⟩
  · intro pos target dist speed multiplier dt h0 hsq h1
    have hd : dist ≠ 0 := ne_of_gt (lt_trans zero_lt_one h1)
    have hx : (potatoChaseStep pos target dist speed multiplier dt).x =
        pos.x + (target.x - pos.x) / dist * (speed * multiplier) * dt := by
      simp [potatoChaseStep, if_pos h1]
    have hy : (potatoChaseStep pos target dist speed multiplier dt).y =
        pos.y + (target.y - pos.y) / dist * (speed * multiplier) * dt := by
      simp [potatoChaseStep, if_pos h1]
    constructor
    · rw [hx, hy]
      ring
    · rw [hx, hy]
      field_simp
      linear_combination (speed * multiplier * dt) * (speed * multiplier * dt) * hsq.symm

/-- C3 (witness): the straight-line chase step applied at the concrete
counterexample input for C1 (distance 400, step 100). -/
theorem claim_C3_witness :
    ((potatoChaseStep ⟨200, 100⟩ ⟨600, 100⟩ 400 230 1 (10 / 23)).x - 200) *
          ((potatoChaseStep ⟨200, 100⟩ ⟨600, 100⟩ 400 230 1 (10 / 23)).x - 200) +
        ((potatoChaseStep ⟨200, 100⟩ ⟨600, 100⟩ 400 230 1 (10 / 23)).y - 100) *
          ((potatoChaseStep ⟨200, 100⟩ ⟨600, 100⟩ 400 230 1 (10 / 23)).y - 100) =
      (230 * 1 * (10 / 23)) * (230 * 1 * (10 / 23)) :=
  ((claim_C3_theorem.2 ⟨200, 100⟩ ⟨600, 100⟩ 400 230 1 (10 / 23)
    (by norm_num) (by norm_num) (by norm_num)).2)

/-! ## Claim C6 -/

/-- Folding the alive scan over a list with no living player leaves the
accumulator unchanged. -/
lemma foldl_aliveFold_none :
    ∀ (l : List Player) (acc : ℕ × Option String),
      l.filter (fun p => !p.isDead) = [] → l.foldl aliveFold acc = acc := by
  intro l
  induction l with
  | nil => intro acc _; rfl
  | cons a l ih =>
    intro acc hf
    by_cases ha : a.isDead = true
    · have hfl : l.filter (fun p => !p.isDead) = [] := by
        simpa [List.filter_cons, ha] using hf
      simp only [List.foldl_cons, aliveFold, ha, if_true]
      exact ih acc hfl
    · exfalso
      have : a.isDead = false := by simpa using ha
      simp [List.filter_cons, this] at hf

/-- Folding the alive scan over a list with exactly one living player `q`
increments the count once and records `q.id` as the potential winner. -/
lemma foldl_aliveFold_single :
    ∀ (l : List Player) (acc : ℕ × Option String) (q : Player),
      l.filter (fun p => !p.isDead) = [q] →
      l.foldl aliveFold acc = (acc.1 + 1, some q.id) := by
  intro l
  induction l with
  | nil => intro acc q h; cases h
  | cons a l ih =>
    intro acc q hf
    by_cases ha : a.isDead = true
    · have hfl : l.filter (fun p => !p.isDead) = [q] := by
        simpa [List.filter_cons, ha] using hf
      simp only [List.foldl_cons, aliveFold, ha, if_true]
      exact ih acc q hfl
    · have ha' : a.isDead = false := by simpa using ha
      have hf' : a :: l.filter (fun p => !p.isDead) = [q] := by
        simpa [List.filter_cons, ha'] using hf
      obtain ⟨rfl, hfl⟩ : a = q ∧ l.filter (fun p => !p.isDead) = [] := by
        constructor
        · exact (List.cons_eq_cons.mp hf').1
        · exact (List.cons_eq_cons.mp hf').2
      simp only [List.foldl_cons, aliveFold, ha', if_neg]
      rw [foldl_aliveFold_none l _ hfl]
      simp

/-- The head of the stable descending sort by score is a member of maximal
score. -/
lemma maxByScore_spec :
    ∀ (l : List Player) (m : Player), maxByScore l = some m →
      m ∈ l ∧ ∀ q ∈ l, q.score ≤ m.score := by
  intro l
  induction l with
  | nil => intro m h; cases h
  | cons p rest ih =>
    intro m h
    cases hr : maxByScore rest with
    | none =>
      rw [maxByScore, hr] at h
      obtain rfl : p = m := by simpa using h
      refine ⟨List.mem_cons_self p rest, ?_⟩
      intro q hq
      rcases List.mem_cons.mp hq with rfl | hq'
      · exact le_rfl
      · cases rest with
        | nil => cases hq'
        | cons b t =>
          exfalso
          rw [maxByScore] at hr
          revert hr
          cases maxByScore t <;> simp
          split <;> simp
    | some b =>
      rw [maxByScore, hr] at h
      dsimp only at h
      have ihb := ih b hr
      by_cases hlt : p.score < b.score
      · rw [if_pos hlt] at h
        obtain rfl : b = m := by simpa using h
        refine ⟨List.mem_cons_of_mem p ihb.1, ?_⟩
        intro q hq
        rcases List.mem_cons.mp hq with rfl | hq'
        · exact le_of_lt hlt
        · exact ihb.2 q hq'
      · rw [if_neg hlt] at h
        obtain rfl : p = m := by simpa using h
        refine ⟨List.mem_cons_self p rest, ?_⟩
        intro q hq
        rcases List.mem_cons.mp hq with rfl | hq'
        · exact le_rfl
        · exact le_trans (ihb.2 q hq') (not_lt.mp hlt)

/-- C6: the game-over arbitration.  (a) Within the 3000 ms grace period
after round start no game over is reported, whatever the player states;
(b) once the `gameEnded` latch is set, the check never fires again;
(c) past the grace period, exactly one living avatar wins immediately and is
the reported winnerId; (d) with zero living avatars the winner is the
tracked last-survivor id when available; (e) with zero living avatars and no
tracked survivor, the winner is the head of the score-descending sort — a
participant of maximal score. -/
theorem claim_C6_theorem :
    (∀ (now startTime : ℚ) (gameEnded : Bool) (ls : Option String) (players : List Player),
      now - startTime ≤ 3000 → (winCheck now startTime gameEnded ls players).2 = none) ∧
    (∀ (now startTime : ℚ) (ls : Option String) (players : List Player),
      (winCheck now startTime true ls players).2 = none) ∧
    (∀ (now startTime : ℚ) (ls : Option String) (players : List Player) (q : Player),
      3000 < now - startTime →
      players.filter (fun p => !p.isDead) = [q] →
      (winCheck now startTime false ls players).2 = some (some q.id)) ∧
    (∀ (now startTime : ℚ) (players : List Player) (w : String),
      3000 < now - startTime →
      players.filter (fun p => !p.isDead) = [] →
      (winCheck now startTime false (some w) players).2 = some (some w)) ∧
    (∀ (now startTime : ℚ) (players : List Player) (m : Player),
      3000 < now - startTime →
      players.filter (fun p => !p.isDead) = [] →
      maxByScore players = some m →
      (winCheck now startTime false none players).2 = some (some m.id) ∧
        ∀ q ∈ players, q.score ≤ m.score) := by
  refine ⟨?_, ?_, ?_, ?_, ?_⟩
  · intro now startTime gameEnded ls players h
    simp only [winCheck]
    rw [if_neg]
    rintro ⟨hc, -⟩
    exact absurd hc (not_lt.mpr h)
  · intro now startTime ls players
    simp only [winCheck]
    rw [if_neg]
    rintro ⟨-, hc⟩
    cases hc
  · intro now startTime ls players q h3 hf
    have hscan : aliveScan players = (1, some q.id) := by
      have := foldl_aliveFold_single players (0, none) q hf
      simpa [aliveScan] using this
    simp [winCheck, hscan, h3]
  · intro now startTime players w h3 hf
    have hscan : aliveScan players = (0, none) :=
      foldl_aliveFold_none players (0, none) hf
    simp [winCheck, hscan, h3]
  · intro now startTime players m h3 hf hmax
    have hscan : aliveScan players = (0, none) :=
      foldl_aliveFold_none players (0, none) hf
    exact ⟨by simp [winCheck, hscan, h3, hmax], (maxByScore_spec players m hmax).2⟩

/-- C6 (witness): four avatars of which three have been eliminated — the
fourth is the reported winnerId once the grace period has elapsed. -/
theorem claim_C6_witness :
    (winCheck 5000 0 false none
        [{ newPlayer "a" "A" "red" ⟨100, 100⟩ with isDead := true, lives := 0 },
          { newPlayer "b" "B" "blue" ⟨200, 100⟩ with isDead := true, lives := 0 },
          { newPlayer "c" "C" "green" ⟨300, 100⟩ with isDead := true, lives := 0 },
          newPlayer "d" "D" "gold" ⟨400, 100⟩]).2 = some (some "d") :=
  claim_C6_theorem.2.2.1 5000 0 none
    [{ newPlayer "a" "A" "red" ⟨100, 100⟩ with isDead := true, lives := 0 },
      { newPlayer "b" "B" "blue" ⟨200, 100⟩ with isDead := true, lives := 0 },
      { newPlayer "c" "C" "green" ⟨300, 100⟩ with isDead := true, lives := 0 },
      newPlayer "d" "D" "gold" ⟨400, 100⟩]
    (newPlayer "d" "D" "gold" ⟨400, 100⟩)
    (by norm_num) (by rfl)

end HotPotato
